import Mathlib

/-!
Verification of the `logging` Go package (leveled logging with pluggable
handlers and formatters).  The definitions below are a shallow embedding of
`logging.go`: Go strings are modelled as `List Char` (byte-for-byte for the
ASCII data handled here), Go `int`-backed `Level`/`Color` values as `Int`,
and the side effects of a `Logger` (handing a record to its handler, closing
the handler, exiting or panicking) as an explicit event trace.
-/

namespace Logging

/-- Go strings are modelled as lists of characters. -/
abbrev Str := List Char

/-- Convert a Lean string literal to the `Str` model. -/
def s2l (s : String) : Str := s.data

/-! ## Levels and colors (`logging.go` lines 15-58)

`type Level int`; the six constants are produced by `iota`, so
`CRITICAL = 0 … DEBUG = 5`.  `type Color int`; the eight constants are
`iota + 30`. -/

def CRITICAL : Int := 0
def ERROR : Int := 1
def WARNING : Int := 2
def NOTICE : Int := 3
def INFO : Int := 4
def DEBUG : Int := 5

def BLACK : Int := 30
def RED : Int := 31
def GREEN : Int := 32
def YELLOW : Int := 33
def BLUE : Int := 34
def MAGENTA : Int := 35
def CYAN : Int := 36
def WHITE : Int := 37

/-- The six named logging levels, in declaration order. -/
def sixLevels : List Int := [CRITICAL, ERROR, WARNING, NOTICE, INFO, DEBUG]

/-- Go `LevelNames` map (lines 42-49).  A Go map lookup at a missing key yields
the zero value, here the empty string. -/
def LevelNames (l : Int) : Str :=
  if l = CRITICAL then s2l "CRITICAL"
  else if l = ERROR then s2l "ERROR"
  else if l = WARNING then s2l "WARNING"
  else if l = NOTICE then s2l "NOTICE"
  else if l = INFO then s2l "INFO"
  else if l = DEBUG then s2l "DEBUG"
  else []

/-- Go `LevelColors` map (lines 51-58); missing key yields the zero `Color`. -/
def LevelColors (l : Int) : Int :=
  if l = CRITICAL then MAGENTA
  else if l = ERROR then RED
  else if l = WARNING then YELLOW
  else if l = NOTICE then GREEN
  else if l = INFO then WHITE
  else if l = DEBUG then CYAN
  else 0

/-! ## Printf-style substitution (external `fmt` package) -/

/-- A Go `interface{}` argument to a logging call: the values the claims
exercise are strings and integers. -/
inductive GoVal where
  | str (s : Str)
  | int (n : Int)
deriving DecidableEq, Repr

/-- Decimal rendering of a natural number, most significant digit first. -/
def natToStr (n : Nat) : Str := Nat.toDigits 10 n

/-- Decimal rendering of a Go `int`. -/
def intToStr (n : Int) : Str :=
  if n < 0 then '-' :: natToStr n.natAbs else natToStr n.toNat

/-- Rendering of one argument substituted for a format directive. -/
def goValRender (v : GoVal) : Str :=
  match v with
  | .str s => s
  | .int n => intToStr n

/-- Modelled from the spec: the external Go `fmt` package's printf-style
substitution (`fmt.Sprintf`), which is not part of this repository.
Restricted to the directives `%s`, `%d`, `%v` and `%%`; per the spec it is
best effort — a directive with no remaining argument produces an
error-marker substring, an unknown directive is passed through as text, and
it never crashes. -/
def goSprintf (fmt : Str) (args : List GoVal) : Str :=
  match fmt, args with
  | '%' :: c :: rest, args =>
    if c = '%' then '%' :: goSprintf rest args
    else if c = 's' ∨ c = 'd' ∨ c = 'v' then
      match args with
      | [] => s2l "%!" ++ [c] ++ s2l "(MISSING)" ++ goSprintf rest []
      | a :: tailArgs => goValRender a ++ goSprintf rest tailArgs
    else '%' :: c :: goSprintf rest args
  | c :: rest, args => c :: goSprintf rest args
  | [], _ => []

/-! ## Time (external `time` package) -/

/-- A wall-clock time as rendered by Go's `time` package.  `rest` models the
tail of `Time.String()` output after second precision (fractional seconds,
zone offset, zone name), which `defaultFormatter.Format` truncates away. -/
structure GoTime where
  year : Nat
  month : Nat
  day : Nat
  hour : Nat
  minute : Nat
  second : Nat
  rest : Str
deriving DecidableEq, Repr

/-- Zero-padded two-digit decimal field (Go layout `01`/`02`/`15`/`04`/`05`);
values of 100 or more (never produced by a normalized `time.Time`) render in
full. -/
def pad2 (n : Nat) : Str :=
  if n ≤ 99 then [Nat.digitChar (n / 10), Nat.digitChar (n % 10)] else natToStr n

/-- Zero-padded four-digit year (Go layout `2006`); years of 10000 or more
render in full. -/
def pad4 (n : Nat) : Str :=
  if n ≤ 9999 then
    [Nat.digitChar (n / 1000), Nat.digitChar (n / 100 % 10),
     Nat.digitChar (n / 10 % 10), Nat.digitChar (n % 10)]
  else natToStr n

/-- The date-time part of Go's default time rendering, second precision:
`YYYY-MM-DD HH:MM:SS`. -/
def dateTimePart (t : GoTime) : Str :=
  pad4 t.year ++ ['-'] ++ pad2 t.month ++ ['-'] ++ pad2 t.day ++ [' ']
    ++ pad2 t.hour ++ [':'] ++ pad2 t.minute ++ [':'] ++ pad2 t.second

/-- Go `fmt.Sprint(rec.Time)`: Go's `Time.String()` renders the layout
`2006-01-02 15:04:05.999999999 -0700 MST`; everything past second precision
is the `rest` field. -/
def goTimeSprint (t : GoTime) : Str := dateTimePart t ++ t.rest

/-! ## Record and the default formatter (lines 121-151) -/

/-- Go `Record` (lines 122-132): all information about a single log message. -/
structure Record where
  Format : Str
  Args : List GoVal
  LoggerName : Str
  Level : Int
  Time : GoTime
  Filename : Str
  Line : Int
  ProcessID : Int
  ProcessName : Str
deriving DecidableEq, Repr

/-- Left-justified padding to width 8 (`fmt`'s `%-8s` directive): shorter
strings are padded on the right with spaces, longer strings are unchanged. -/
def padRight8 (s : Str) : Str := s ++ List.replicate (8 - s.length) ' '

/-- Go `defaultFormatter.Format` (lines 149-151):
`fmt.Sprintf("%s [%s] %-8s %s", fmt.Sprint(rec.Time)[:19], rec.LoggerName,
LevelNames[rec.Level], fmt.Sprintf(rec.Format, rec.Args...))`. -/
def defaultFormatter.Format (rec : Record) : Str :=
  (goTimeSprint rec.Time).take 19 ++ s2l " [" ++ rec.LoggerName ++ s2l "] "
    ++ padRight8 (LevelNames rec.Level) ++ s2l " "
    ++ goSprintf rec.Format rec.Args

/-! ## Logger implementation (lines 159-301)

The `Handler` interface interaction of a `logger` is modelled
observationally: `Handler.Handle(rec)` is the event `Event.handled rec`,
`Handler.Close()` is `Event.closed`, `os.Exit(1)` is `Event.exited 1` and
`panic(msg)` is `Event.panicMsg msg`.  The runtime facilities a `logger`
consults (`time.Now()`, `runtime.Caller`, `os.Getpid()`, `os.Args[0]`) are
passed in explicitly: `RuntimeCtx` carries the clock and process identity,
and the Go call stack is a `List Frame` whose head is the frame of the
function that called the library entry point. -/

/-- One stack frame as reported by `runtime.Caller`: source file and line. -/
structure Frame where
  file : Str
  line : Int
deriving DecidableEq, Repr

/-- Ambient runtime state read while building a `Record`. -/
structure RuntimeCtx where
  now : GoTime
  pid : Int
  procNm : Str
deriving DecidableEq, Repr

/-- Observable side effects of a `logger` call. -/
inductive Event where
  | handled (rec : Record)
  | closed
  | exited (code : Int)
  | panicMsg (msg : Str)
deriving DecidableEq, Repr

/-- Go `logger` (lines 160-164).  The `Handler` field is modelled by the event
trace, see above. -/
structure logger where
  Name : Str
  Level : Int
deriving DecidableEq, Repr

/-- Go `DefaultLevel = INFO` (line 62). -/
def DefaultLevel : Int := INFO

/-- Go `NewLogger` (lines 167-173). -/
def NewLogger (name : Str) : logger :=
  { Name := name, Level := DefaultLevel }

/-- Library frames pushed onto the stack by the wrapper functions, at the
line of the call they make.  The six severity methods call `l.log` at lines
201/207/213/219/225/231; `Fatal` and `Panic` call `l.Critical` at lines
188/194; the free functions forward to `DefaultLogger` at lines
272/276/280/284/288/292/296/300. -/
def libFile : Str := s2l "logging.go"

def frameCriticalM : Frame := { file := libFile, line := 201 }

def frameErrorM : Frame := { file := libFile, line := 207 }

def frameWarningM : Frame := { file := libFile, line := 213 }

def frameNoticeM : Frame := { file := libFile, line := 219 }

def frameInfoM : Frame := { file := libFile, line := 225 }

def frameDebugM : Frame := { file := libFile, line := 231 }

def frameFatalM : Frame := { file := libFile, line := 188 }

def framePanicM : Frame := { file := libFile, line := 194 }

def frameFatalF : Frame := { file := libFile, line := 272 }

def framePanicF : Frame := { file := libFile, line := 276 }

def frameCriticalF : Frame := { file := libFile, line := 280 }

def frameErrorF : Frame := { file := libFile, line := 284 }

def frameWarningF : Frame := { file := libFile, line := 288 }

def frameNoticeF : Frame := { file := libFile, line := 292 }

def frameInfoF : Frame := { file := libFile, line := 296 }

def frameDebugF : Frame := { file := libFile, line := 300 }

/-- Newline normalization at the top of `logger.log` (lines 236-239):
`if !strings.HasSuffix(format, "\n") { format += "\n" }`. -/
def normalizeTemplate (format : Str) : Str :=
  if (s2l "\n").isSuffixOf format then format else format ++ s2l "\n"

/-- The `Record` built by `logger.log` (lines 241-257).  `callers` is the
call stack above `log` itself, so `runtime.Caller(2)` — skip 0 being `log`'s
own frame — reads `callers[1]`; on failure (`!ok`) the file is `"???"` and
the line 0. -/
def logger.mkRecord (l : logger) (ctx : RuntimeCtx) (callers : List Frame)
    (level : Int) (format : Str) (args : List GoVal) : Record :=
  let caller2 := callers[1]?
  { Format := normalizeTemplate format
    Args := args
    LoggerName := l.Name
    Level := level
    Time := ctx.now
    Filename := (caller2.map Frame.file).getD (s2l "???")
    Line := (caller2.map Frame.line).getD 0
    ProcessID := ctx.pid
    ProcessName := ctx.procNm }

/-- Go `logger.log` (lines 235-260): build the record, then
`l.Handler.Handle(rec)`. -/
def logger.log (l : logger) (ctx : RuntimeCtx) (callers : List Frame)
    (level : Int) (format : Str) (args : List GoVal) : List Event :=
  [Event.handled (l.mkRecord ctx callers level format args)]

/-- Go `logger.Critical` (lines 199-203): `if l.Level >= CRITICAL { l.log(CRITICAL, …) }`. -/
def logger.Critical (l : logger) (ctx : RuntimeCtx) (callers : List Frame)
    (format : Str) (args : List GoVal) : List Event :=
  if l.Level ≥ CRITICAL then l.log ctx (frameCriticalM :: callers) CRITICAL format args
  else []

/-- Go `logger.Error` (lines 205-209). -/
def logger.Error (l : logger) (ctx : RuntimeCtx) (callers : List Frame)
    (format : Str) (args : List GoVal) : List Event :=
  if l.Level ≥ ERROR then l.log ctx (frameErrorM :: callers) ERROR format args
  else []

/-- Go `logger.Warning` (lines 211-215). -/
def logger.Warning (l : logger) (ctx : RuntimeCtx) (callers : List Frame)
    (format : Str) (args : List GoVal) : List Event :=
  if l.Level ≥ WARNING then l.log ctx (frameWarningM :: callers) WARNING format args
  else []

/-- Go `logger.Notice` (lines 217-221). -/
def logger.Notice (l : logger) (ctx : RuntimeCtx) (callers : List Frame)
    (format : Str) (args : List GoVal) : List Event :=
  if l.Level ≥ NOTICE then l.log ctx (frameNoticeM :: callers) NOTICE format args
  else []

/-- Go `logger.Info` (lines 223-227). -/
def logger.Info (l : logger) (ctx : RuntimeCtx) (callers : List Frame)
    (format : Str) (args : List GoVal) : List Event :=
  if l.Level ≥ INFO then l.log ctx (frameInfoM :: callers) INFO format args
  else []

/-- Go `logger.Debug` (lines 229-233). -/
def logger.Debug (l : logger) (ctx : RuntimeCtx) (callers : List Frame)
    (format : Str) (args : List GoVal) : List Event :=
  if l.Level ≥ DEBUG then l.log ctx (frameDebugM :: callers) DEBUG format args
  else []

/-- Go `logger.Close` (lines 175-177): `l.Handler.Close()`. -/
def logger.CloseTrace : List Event := [Event.closed]

/-- Go `logger.Fatal` (lines 187-191): `l.Critical(…)`, `l.Close()`,
`os.Exit(1)`; the process terminates, so the trace ends at the exit
event. -/
def logger.Fatal (l : logger) (ctx : RuntimeCtx) (callers : List Frame)
    (format : Str) (args : List GoVal) : List Event :=
  l.Critical ctx (frameFatalM :: callers) format args
    ++ logger.CloseTrace ++ [Event.exited 1]

/-- Go `logger.Panic` (lines 193-197): `l.Critical(…)`, `l.Close()`,
`panic(fmt.Sprintf(format, args...))` — the panic message uses the original
(un-normalized) template. -/
def logger.Panic (l : logger) (ctx : RuntimeCtx) (callers : List Frame)
    (format : Str) (args : List GoVal) : List Event :=
  l.Critical ctx (framePanicM :: callers) format args
    ++ logger.CloseTrace ++ [Event.panicMsg (goSprintf format args)]

/-! ### Process-wide convenience functions (lines 271-301)

Each free function forwards to `DefaultLogger`; the current default logger
is passed explicitly since it is a mutable package variable.  Each forward
pushes the free function's own frame onto the stack seen by `logger.log`. -/

/-- Free `Critical` (lines 279-281). -/
def Critical (dl : logger) (ctx : RuntimeCtx) (callers : List Frame)
    (format : Str) (args : List GoVal) : List Event :=
  dl.Critical ctx (frameCriticalF :: callers) format args

/-- Free `Error` (lines 283-285). -/
def Error (dl : logger) (ctx : RuntimeCtx) (callers : List Frame)
    (format : Str) (args : List GoVal) : List Event :=
  dl.Error ctx (frameErrorF :: callers) format args

/-- Free `Warning` (lines 287-289). -/
def Warning (dl : logger) (ctx : RuntimeCtx) (callers : List Frame)
    (format : Str) (args : List GoVal) : List Event :=
  dl.Warning ctx (frameWarningF :: callers) format args

/-- Free `Notice` (lines 291-293). -/
def Notice (dl : logger) (ctx : RuntimeCtx) (callers : List Frame)
    (format : Str) (args : List GoVal) : List Event :=
  dl.Notice ctx (frameNoticeF :: callers) format args

/-- Free `Info` (lines 295-297). -/
def Info (dl : logger) (ctx : RuntimeCtx) (callers : List Frame)
    (format : Str) (args : List GoVal) : List Event :=
  dl.Info ctx (frameInfoF :: callers) format args

/-- Free `Debug` (lines 299-301). -/
def Debug (dl : logger) (ctx : RuntimeCtx) (callers : List Frame)
    (format : Str) (args : List GoVal) : List Event :=
  dl.Debug ctx (frameDebugF :: callers) format args

/-- Free `Fatal` (lines 271-273). -/
def Fatal (dl : logger) (ctx : RuntimeCtx) (callers : List Frame)
    (format : Str) (args : List GoVal) : List Event :=
  dl.Fatal ctx (frameFatalF :: callers) format args

/-- Free `Panic` (lines 275-277). -/
def Panic (dl : logger) (ctx : RuntimeCtx) (callers : List Frame)
    (format : Str) (args : List GoVal) : List Event :=
  dl.Panic ctx (framePanicF :: callers) format args

/-! ## BaseHandler (lines 309-334) -/

/-- A `Formatter` is an object with a `Format(*Record) string` method,
modelled as a function. -/
abbrev FormatterFn := Record → Str

/-- Go `BaseHandler` (lines 309-312): a level threshold and a formatter. -/
structure BaseHandler where
  Level : Int
  Formatter : FormatterFn

/-- Go `NewBaseHandler` (lines 314-319). -/
def NewBaseHandler : BaseHandler :=
  { Level := DefaultLevel, Formatter := defaultFormatter.Format }

/-- Go `BaseHandler.SetLevel` (lines 321-323). -/
def BaseHandler.SetLevel (h : BaseHandler) (l : Int) : BaseHandler :=
  { h with Level := l }

/-- Go `BaseHandler.SetFormatter` (lines 325-327). -/
def BaseHandler.SetFormatter (h : BaseHandler) (f : FormatterFn) : BaseHandler :=
  { h with Formatter := f }

/-- Go `BaseHandler.FilterAndFormat` (lines 329-334):
`if h.Level >= rec.Level { return h.Formatter.Format(rec) }; return ""`. -/
def BaseHandler.FilterAndFormat (h : BaseHandler) (rec : Record) : Str :=
  if h.Level ≥ rec.Level then h.Formatter rec else []

/-! ## WriterHandler (lines 342-370) -/

/-- Go `WriterHandler` (lines 343-347): wraps an `io.Writer` (external); the
writes it issues are returned by `Handle` instead. -/
structure WriterHandler where
  base : BaseHandler
  Colorize : Bool

/-- The escape sequence `fmt.Sprintf("\033[%dm", color)`. -/
def escStart (color : Int) : Str := s2l "\x1b[" ++ intToStr color ++ s2l "m"

/-- The reset sequence `"\033[0m"`. -/
def escReset : Str := s2l "\x1b[0m"

/-- Go `WriterHandler.Handle` (lines 356-368): filter and format; an empty
message means return without writing; otherwise write the optional color
escape, the message, and the optional reset.  The returned list is the
sequence of writes issued to the underlying writer. -/
def WriterHandler.Handle (b : WriterHandler) (rec : Record) : List Str :=
  let message := b.base.FilterAndFormat rec
  if message = [] then []
  else
    (if b.Colorize then [escStart (LevelColors rec.Level)] else [])
      ++ [message]
      ++ (if b.Colorize then [escReset] else [])

/-! ## SyslogHandler (lines 379-423) -/

/-- The six severity-specific send methods of the external
`syslog.Writer`. -/
inductive SyslogFn where
  | crit
  | err
  | warning
  | notice
  | info
  | debug
deriving DecidableEq, Repr

/-- Go `SyslogHandler` (lines 379-382): wraps a `*syslog.Writer` (external
transport); the call it makes is returned by `Handle` instead. -/
structure SyslogHandler where
  base : BaseHandler

/-- The `switch rec.Level` of `SyslogHandler.Handle` (lines 403-417): the
local variable `var fn func(string) error` is assigned for exactly the six
named levels and stays `nil` otherwise. -/
def syslogFnFor (level : Int) : Option SyslogFn :=
  if level = CRITICAL then some SyslogFn.crit
  else if level = ERROR then some SyslogFn.err
  else if level = WARNING then some SyslogFn.warning
  else if level = NOTICE then some SyslogFn.notice
  else if level = INFO then some SyslogFn.info
  else if level = DEBUG then some SyslogFn.debug
  else none

/-- Go `SyslogHandler.Handle` (lines 397-419).  `Except.ok none` models the
early return on an empty message (no transport call), `Except.ok (some
(fn, msg))` models the single transport call `fn(message)`, and
`Except.error ()` models the nil-function-value call `fn(message)` when the
switch matched no case — a runtime fault. -/
def SyslogHandler.Handle (b : SyslogHandler) (rec : Record) :
    Except Unit (Option (SyslogFn × Str)) :=
  let message := b.base.FilterAndFormat rec
  if message = [] then Except.ok none
  else
    match syslogFnFor rec.Level with
    | some fn => Except.ok (some (fn, message))
    | none => Except.error ()

/-! ## MultiHandler (lines 432-474) -/

/-- Go `MultiHandler` (lines 432-434): an ordered slice of child `Handler`
values and nothing else.  The child type is a parameter because Go's
`Handler` is an interface. -/
structure MultiHandler (H : Type) where
  handlers : List H

/-- Go `NewMultiHandler` (lines 436-438). -/
def NewMultiHandler (H : Type) (handlers : List H) : MultiHandler H :=
  { handlers := handlers }

/-- An arbitrary child `Handler` as seen through the interface's `Handle`
method: private state of some type `σ` and a `Handle` implementation that
updates it from a record.  A failing child is a child whose state records
the failure — the Go `Handle` method returns nothing either way. -/
structure Child (σ : Type) where
  state : σ
  handle : Record → σ → σ

/-- Go `MultiHandler.Handle` (lines 452-462): spawn one goroutine per child,
each calling `handler.Handle(rec)` on the same record, and
`wg.Wait()` until all have returned.  Each goroutine touches only its own
child's state, and the `WaitGroup` barrier means the method returns exactly
when every child's call has completed, so the resulting state is each child
updated by its own `Handle` — modelled as a map.  No error is surfaced:
the result is just the updated children. -/
def MultiHandler.Handle {σ : Type} (m : MultiHandler (Child σ)) (rec : Record) :
    MultiHandler (Child σ) :=
  { handlers := m.handlers.map (fun c => { c with state := c.handle rec c.state }) }

/-- Go `MultiHandler.SetLevel` (lines 446-450): `h.SetLevel(l)` on every child.
The repository's concrete sinks all embed `*BaseHandler`, whose `SetLevel`
overwrites the `Level` field, so children are modelled as `BaseHandler`s. -/
def MultiHandler.SetLevel (m : MultiHandler BaseHandler) (l : Int) :
    MultiHandler BaseHandler :=
  { handlers := m.handlers.map (fun h => h.SetLevel l) }

/-- Go `MultiHandler.SetFormatter` (lines 440-444): `h.SetFormatter(f)` on
every child. -/
def MultiHandler.SetFormatter (m : MultiHandler BaseHandler) (f : FormatterFn) :
    MultiHandler BaseHandler :=
  { handlers := m.handlers.map (fun h => h.SetFormatter f) }

/-! ## Helper predicates and observation functions -/

/-- Holds when `s` ends in a newline character. -/
def EndsNl (s : Str) : Prop := s.getLast? = some '\n'

instance (s : Str) : Decidable (EndsNl s) :=
  inferInstanceAs (Decidable (s.getLast? = some '\n'))

/-- The trace consists of exactly one `Handler.Handle` invocation, on a
record at level `B`. -/
def deliversAt (tr : List Event) (B : Int) : Prop :=
  ∃ r, tr = [Event.handled r] ∧ r.Level = B

/-- The records handed to the handler during a trace. -/
def recordsOf (tr : List Event) : List Record :=
  tr.filterMap fun e =>
    match e with
    | Event.handled r => some r
    | _ => none

/-- The source locations of the records handed to the handler. -/
def deliveredLocs (tr : List Event) : List (Str × Int) :=
  (recordsOf tr).map fun r => (r.Filename, r.Line)

/-! ## Library lemmas about the text model -/

theorem endsNl_append (l₁ : Str) {l₂ : Str} (h : EndsNl l₂) : EndsNl (l₁ ++ l₂) := by
  have hne : l₂ ≠ [] := by
    intro he
    rw [he] at h
    simp [EndsNl] at h
  unfold EndsNl at h ⊢
  rw [List.getLast?_append_of_ne_nil l₁ hne]
  exact h

theorem endsNl_cons (a : Char) {l : Str} (h : EndsNl l) : EndsNl (a :: l) :=
  endsNl_append [a] h

theorem endsNl_concat (l : Str) : EndsNl (l ++ ['\n']) := by
  unfold EndsNl
  exact List.getLast?_concat l

theorem endsNl_cons_elim {a : Char} {t : Str} (h : EndsNl (a :: t)) :
    (t = [] ∧ a = '\n') ∨ EndsNl t := by
  cases t with
  | nil =>
    left
    refine ⟨rfl, ?_⟩
    simpa [EndsNl, List.getLast?] using h
  | cons b u =>
    right
    have he : (a :: b :: u : Str) = [a] ++ (b :: u) := rfl
    unfold EndsNl at h ⊢
    rw [he, List.getLast?_append_of_ne_nil [a] (by simp)] at h
    exact h

theorem endsNl_iff_suffix (s : Str) : EndsNl s ↔ ['\n'] <:+ s := by
  constructor
  · intro h
    induction s with
    | nil => simp [EndsNl] at h
    | cons a t ih =>
      rcases endsNl_cons_elim h with ⟨ht, ha⟩ | ht
      · subst ht; subst ha
        exact ⟨[], rfl⟩
      · obtain ⟨u, hu⟩ := ih ht
        exact ⟨a :: u, by rw [← hu]; rfl⟩
  · rintro ⟨u, rfl⟩
    exact endsNl_concat u

theorem normalizeTemplate_of_endsNl {f : Str} (h : EndsNl f) :
    normalizeTemplate f = f := by
  unfold normalizeTemplate
  rw [if_pos]
  show (s2l "\n").isSuffixOf f = true
  rw [show s2l "\n" = ['\n'] from rfl, List.isSuffixOf_iff_suffix]
  exact (endsNl_iff_suffix f).mp h

theorem normalizeTemplate_of_not_endsNl {f : Str} (h : ¬ EndsNl f) :
    normalizeTemplate f = f ++ s2l "\n" := by
  unfold normalizeTemplate
  rw [if_neg]
  show ¬ (s2l "\n").isSuffixOf f = true
  rw [show s2l "\n" = ['\n'] from rfl, List.isSuffixOf_iff_suffix]
  intro hs
  exact h ((endsNl_iff_suffix f).mpr hs)

theorem normalizeTemplate_endsNl (f : Str) : EndsNl (normalizeTemplate f) := by
  by_cases h : EndsNl f
  · rw [normalizeTemplate_of_endsNl h]; exact h
  · rw [normalizeTemplate_of_not_endsNl h]
    exact endsNl_concat f

/-- Printf substitution preserves a trailing newline of the template: the
trailing `'\n'` is a literal character, never consumed as a directive. -/
theorem goSprintf_endsNl : ∀ (fmt : Str) (args : List GoVal),
    EndsNl fmt → EndsNl (goSprintf fmt args) := by
  intro fmt args
  induction fmt, args using goSprintf.induct with
  | case1 rest args ih =>
    intro h
    rcases endsNl_cons_elim h with ⟨ht, _⟩ | ht
    · exact absurd ht (by simp)
    rcases endsNl_cons_elim ht with ⟨_, ha⟩ | ht'
    · exact absurd ha (by decide)
    rw [show goSprintf ('%' :: '%' :: rest) args = '%' :: goSprintf rest args from rfl]
    exact endsNl_cons '%' (ih ht')
  | case2 c rest hc hv ih =>
    intro h
    rcases endsNl_cons_elim h with ⟨ht, _⟩ | ht
    · exact absurd ht (by simp)
    rcases endsNl_cons_elim ht with ⟨_, ha⟩ | ht'
    · subst ha
      rcases hv with h' | h' | h' <;> simp at h'
    have he : goSprintf ('%' :: c :: rest) []
        = s2l "%!" ++ [c] ++ s2l "(MISSING)" ++ goSprintf rest [] := by
      show (if c = '%' then _ else _) = _
      rw [if_neg hc, if_pos hv]
    rw [he]
    exact endsNl_append _ (ih ht')
  | case3 c rest hc hv a tailArgs ih =>
    intro h
    rcases endsNl_cons_elim h with ⟨ht, _⟩ | ht
    · exact absurd ht (by simp)
    rcases endsNl_cons_elim ht with ⟨_, ha⟩ | ht'
    · subst ha
      rcases hv with h' | h' | h' <;> simp at h'
    have he : goSprintf ('%' :: c :: rest) (a :: tailArgs)
        = goValRender a ++ goSprintf rest tailArgs := by
      show (if c = '%' then _ else _) = _
      rw [if_neg hc, if_pos hv]
    rw [he]
    exact endsNl_append _ (ih ht')
  | case4 c rest args hc hv ih =>
    intro h
    have he : goSprintf ('%' :: c :: rest) args
        = '%' :: c :: goSprintf rest args := by
      show (if c = '%' then _ else _) = _
      rw [if_neg hc, if_neg hv]
    rw [he]
    rcases endsNl_cons_elim h with ⟨ht, _⟩ | ht
    · exact absurd ht (by simp)
    rcases endsNl_cons_elim ht with ⟨hr, ha⟩ | ht'
    · subst hr; subst ha
      exact endsNl_cons '%' (endsNl_concat [])
    · exact endsNl_cons '%' (endsNl_cons c (ih ht'))
  | case5 c rest args hshape ih =>
    intro h
    have he : goSprintf (c :: rest) args = c :: goSprintf rest args := by
      cases rest with
      | nil => simp [goSprintf]
      | cons b u =>
        by_cases hc : c = '%'
        · exact absurd rfl (hshape b u hc)
        · simp [goSprintf, hc]
    rw [he]
    rcases endsNl_cons_elim h with ⟨hr, ha⟩ | ht
    · subst hr; subst ha
      exact endsNl_concat []
    · exact endsNl_cons c (ih ht)
  | case6 args =>
    intro h
    simp [EndsNl] at h

/-- Under the field bounds a normalized `time.Time` always satisfies, the
date-time part of Go's default time rendering is exactly 19 characters. -/
theorem dateTimePart_length (t : GoTime) (hy : t.year ≤ 9999)
    (hmo : t.month ≤ 99) (hd : t.day ≤ 99) (hh : t.hour ≤ 99)
    (hmi : t.minute ≤ 99) (hs : t.second ≤ 99) :
    (dateTimePart t).length = 19 := by
  simp [dateTimePart, pad4, pad2, hy, hmo, hd, hh, hmi, hs]

/-- Truncating Go's default time rendering to 19 bytes yields exactly the
`YYYY-MM-DD HH:MM:SS` part. -/
theorem goTimeSprint_take19 (t : GoTime) (hy : t.year ≤ 9999)
    (hmo : t.month ≤ 99) (hd : t.day ≤ 99) (hh : t.hour ≤ 99)
    (hmi : t.minute ≤ 99) (hs : t.second ≤ 99) :
    (goTimeSprint t).take 19 = dateTimePart t := by
  unfold goTimeSprint
  rw [← dateTimePart_length t hy hmo hd hh hmi hs]
  exact List.take_left _ _

/-! ## Level gating -/

/-- The gating contract of one severity-named call: the trace is a single
`Handler.Handle` invocation on a record at the call's level `B` iff `B` is
at most the threshold `A`; otherwise the trace is empty. -/
def gateOk (tr : List Event) (B A : Int) : Prop :=
  (deliversAt tr B ↔ B ≤ A) ∧ (¬ B ≤ A → tr = [])

theorem deliversAt_gate (l : logger) (ctx : RuntimeCtx) (mf : Frame)
    (callers : List Frame) (lvl : Int) (format : Str) (args : List GoVal) :
    gateOk (if l.Level ≥ lvl then l.log ctx (mf :: callers) lvl format args else [])
      lvl l.Level := by
  by_cases h : l.Level ≥ lvl
  · rw [if_pos h]
    constructor
    · constructor
      · intro _
        exact h
      · intro _
        exact ⟨l.mkRecord ctx (mf :: callers) lvl format args, rfl, rfl⟩
    · intro hn
      exact absurd h hn
  · rw [if_neg h]
    constructor
    · constructor
      · rintro ⟨r, hr, _⟩
        exact absurd hr (by simp)
      · intro hle
        exact absurd hle h
    · intro _
      rfl

/-! ## Concrete sample inputs used by the witnesses -/

def wTime : GoTime :=
  { year := 2014, month := 2, day := 28, hour := 18, minute := 15,
    second := 57, rest := s2l " +0000 UTC" }

def wCtx : RuntimeCtx := { now := wTime, pid := 7, procNm := s2l "svc" }

def wFrame : Frame := { file := s2l "main.go", line := 10 }

def wLogger : logger := { Name := s2l "svc", Level := WARNING }

/-- Claim C1: for every Logger threshold `A` among the six levels and every
severity-named call at level `B`, the call invokes `Handler.Handle` with a
`Record` whose `Level` field is `B` iff `B ≤ A`; otherwise the call is a
no-op — no record, no handler invocation. -/
theorem c1_level_gating (A : Int) (hA : A ∈ sixLevels) (l : logger)
    (ctx : RuntimeCtx) (callers : List Frame) (format : Str) (args : List GoVal)
    (hl : l.Level = A) :
    gateOk (l.Critical ctx callers format args) CRITICAL A
    ∧ gateOk (l.Error ctx callers format args) ERROR A
    ∧ gateOk (l.Warning ctx callers format args) WARNING A
    ∧ gateOk (l.Notice ctx callers format args) NOTICE A
    ∧ gateOk (l.Info ctx callers format args) INFO A
    ∧ gateOk (l.Debug ctx callers format args) DEBUG A := by
  subst hl
  exact ⟨deliversAt_gate l ctx frameCriticalM callers CRITICAL format args,
    deliversAt_gate l ctx frameErrorM callers ERROR format args,
    deliversAt_gate l ctx frameWarningM callers WARNING format args,
    deliversAt_gate l ctx frameNoticeM callers NOTICE format args,
    deliversAt_gate l ctx frameInfoM callers INFO format args,
    deliversAt_gate l ctx frameDebugM callers DEBUG format args⟩

/-- Witness for C1 at threshold `WARNING` and a concrete call. -/
theorem c1_level_gating_witness :
    (WARNING ∈ sixLevels ∧ wLogger.Level = WARNING)
    ∧ (gateOk (wLogger.Critical wCtx [wFrame] (s2l "x") []) CRITICAL WARNING
      ∧ gateOk (wLogger.Error wCtx [wFrame] (s2l "x") []) ERROR WARNING
      ∧ gateOk (wLogger.Warning wCtx [wFrame] (s2l "x") []) WARNING WARNING
      ∧ gateOk (wLogger.Notice wCtx [wFrame] (s2l "x") []) NOTICE WARNING
      ∧ gateOk (wLogger.Info wCtx [wFrame] (s2l "x") []) INFO WARNING
      ∧ gateOk (wLogger.Debug wCtx [wFrame] (s2l "x") []) DEBUG WARNING) :=
  ⟨⟨by decide, rfl⟩,
    c1_level_gating WARNING (by decide) wLogger wCtx [wFrame] (s2l "x") [] rfl⟩

/-- Claim C9: when the threshold is one of the six named levels, the guard
`l.Level >= CRITICAL` always holds (CRITICAL is the minimal ordinal), so
`Critical` — and hence `Fatal` and `Panic` — always delivers its record to
the handler. -/
theorem c9_critical_never_suppressed (l : logger) (ctx : RuntimeCtx)
    (callers : List Frame) (format : Str) (args : List GoVal)
    (hl : l.Level ∈ sixLevels) :
    CRITICAL ≤ l.Level
    ∧ (∃ r, l.Critical ctx callers format args = [Event.handled r]
        ∧ r.Level = CRITICAL)
    ∧ (∃ r, l.Fatal ctx callers format args
        = [Event.handled r, Event.closed, Event.exited 1] ∧ r.Level = CRITICAL)
    ∧ (∃ r m, l.Panic ctx callers format args
        = [Event.handled r, Event.closed, Event.panicMsg m]
        ∧ r.Level = CRITICAL) := by
  have h0 : CRITICAL ≤ l.Level := by
    simp [sixLevels, CRITICAL, ERROR, WARNING, NOTICE, INFO, DEBUG] at hl ⊢
    rcases hl with h | h | h | h | h | h <;> omega
  refine ⟨h0, ?_, ?_, ?_⟩
  · exact ⟨l.mkRecord ctx (frameCriticalM :: callers) CRITICAL format args,
      by rw [logger.Critical, if_pos h0, logger.log], rfl⟩
  · refine ⟨l.mkRecord ctx (frameCriticalM :: frameFatalM :: callers) CRITICAL format args,
      ?_, rfl⟩
    rw [logger.Fatal, logger.Critical, if_pos h0, logger.log]
    rfl
  · refine ⟨l.mkRecord ctx (frameCriticalM :: framePanicM :: callers) CRITICAL format args,
      goSprintf format args, ?_, rfl⟩
    rw [logger.Panic, logger.Critical, if_pos h0, logger.log]
    rfl

def wLoggerD : logger := { Name := s2l "svc", Level := DEBUG }

/-- Witness for C9 at threshold `DEBUG`. -/
theorem c9_critical_never_suppressed_witness :
    wLoggerD.Level ∈ sixLevels
    ∧ (CRITICAL ≤ wLoggerD.Level
      ∧ (∃ r, wLoggerD.Critical wCtx [wFrame] (s2l "x") [] = [Event.handled r]
          ∧ r.Level = CRITICAL)
      ∧ (∃ r, wLoggerD.Fatal wCtx [wFrame] (s2l "x") []
          = [Event.handled r, Event.closed, Event.exited 1] ∧ r.Level = CRITICAL)
      ∧ (∃ r m, wLoggerD.Panic wCtx [wFrame] (s2l "x") []
          = [Event.handled r, Event.closed, Event.panicMsg m]
          ∧ r.Level = CRITICAL)) :=
  ⟨by decide, c9_critical_never_suppressed wLoggerD wCtx [wFrame] (s2l "x") [] (by decide)⟩

/-- Claim C7: `Fatal` delivers a CRITICAL-level record to the handler,
then closes the handler, then terminates the process with exit status 1 —
in that order, the record handed over before termination, and the trace
ending at the exit (the call never returns). -/
theorem c7_fatal_sequence (l : logger) (ctx : RuntimeCtx) (callers : List Frame)
    (format : Str) (args : List GoVal) (hl : l.Level ∈ sixLevels) :
    ∃ r, l.Fatal ctx callers format args
        = [Event.handled r, Event.closed, Event.exited 1]
      ∧ r.Level = CRITICAL ∧ r.Format = normalizeTemplate format
      ∧ r.Args = args := by
  have h0 : CRITICAL ≤ l.Level := by
    simp [sixLevels, CRITICAL, ERROR, WARNING, NOTICE, INFO, DEBUG] at hl ⊢
    rcases hl with h | h | h | h | h | h <;> omega
  refine ⟨l.mkRecord ctx (frameCriticalM :: frameFatalM :: callers) CRITICAL format args,
    ?_, rfl, rfl, rfl⟩
  rw [logger.Fatal, logger.Critical, if_pos h0, logger.log]
  rfl

/-- Witness for C7 at threshold `WARNING`. -/
theorem c7_fatal_sequence_witness :
    wLogger.Level ∈ sixLevels
    ∧ (∃ r, wLogger.Fatal wCtx [wFrame] (s2l "boom") []
        = [Event.handled r, Event.closed, Event.exited 1]
      ∧ r.Level = CRITICAL ∧ r.Format = normalizeTemplate (s2l "boom")
      ∧ r.Args = []) :=
  ⟨by decide, c7_fatal_sequence wLogger wCtx [wFrame] (s2l "boom") [] (by decide)⟩

def wRecI : Record :=
  { Format := s2l "request id=%d\n", Args := [GoVal.int 42],
    LoggerName := s2l "svc", Level := INFO, Time := wTime,
    Filename := s2l "main.go", Line := 10, ProcessID := 7,
    ProcessName := s2l "svc" }

def wRecD : Record := { wRecI with Level := DEBUG, Format := s2l "x\n", Args := [] }

def wRecBad : Record := { wRecI with Level := 6 }

def wBase : BaseHandler := { Level := INFO, Formatter := fun _ => s2l "m" }

def wSys : SyslogHandler := { base := { Level := 10, Formatter := fun _ => s2l "m" } }

/-- Claim C2: `FilterAndFormat` returns the empty string when the record's
level is numerically greater (more verbose) than the handler's threshold
and exactly `Formatter.Format(rec)` otherwise; both `WriterHandler.Handle`
and `SyslogHandler.Handle` treat an empty result as "do nothing" — no
write, no transport call. -/
theorem c2_filter_and_format (h : BaseHandler) (rec : Record) (colorize : Bool) :
    (h.Level < rec.Level → h.FilterAndFormat rec = [])
    ∧ (rec.Level ≤ h.Level → h.FilterAndFormat rec = h.Formatter rec)
    ∧ (h.FilterAndFormat rec = [] →
        WriterHandler.Handle { base := h, Colorize := colorize } rec = [])
    ∧ (h.FilterAndFormat rec = [] →
        SyslogHandler.Handle { base := h } rec = Except.ok none) := by
  refine ⟨?_, ?_, ?_, ?_⟩
  · intro hlt
    rw [BaseHandler.FilterAndFormat, if_neg]
    omega
  · intro hle
    rw [BaseHandler.FilterAndFormat, if_pos hle]
  · intro hm
    rw [WriterHandler.Handle]
    simp [hm]
  · intro hm
    rw [SyslogHandler.Handle]
    simp [hm]

/-- Witness for C2: a handler at INFO suppresses a DEBUG record and its
sinks stay silent; a record at the threshold is formatted. -/
theorem c2_filter_and_format_witness :
    (wBase.Level < wRecD.Level
      ∧ wBase.FilterAndFormat wRecD = []
      ∧ WriterHandler.Handle { base := wBase, Colorize := true } wRecD = []
      ∧ SyslogHandler.Handle { base := wBase } wRecD = Except.ok none)
    ∧ (wRecI.Level ≤ wBase.Level
      ∧ wBase.FilterAndFormat wRecI = wBase.Formatter wRecI) := by
  have ht := c2_filter_and_format wBase wRecD true
  have ht2 := c2_filter_and_format wBase wRecI true
  have h1 : wBase.Level < wRecD.Level := by decide
  have h2 : wRecI.Level ≤ wBase.Level := by decide
  exact ⟨⟨h1, ht.1 h1, ht.2.2.1 (ht.1 h1), ht.2.2.2 (ht.1 h1)⟩,
    ⟨h2, ht2.2.1 h2⟩⟩

/-- Claim C10: `SyslogHandler.Handle` is safe exactly under the
precondition that the record's level is one of the six named constants:
then the result is a normal return whose transport call (if any) is the
method the severity switch selects; for any other level whose message
passes the filter, the `fn` variable stays nil and the call faults.  The
third conjunct pins the switch table: each named level selects the
matching transport method. -/
theorem c10_syslog_switch (b : SyslogHandler) (rec : Record) :
    (rec.Level ∈ sixLevels →
      ∃ o, b.Handle rec = Except.ok o
        ∧ ∀ p ∈ o, syslogFnFor rec.Level = some p.1
            ∧ p.2 = b.base.FilterAndFormat rec)
    ∧ (rec.Level ∉ sixLevels → b.base.FilterAndFormat rec ≠ [] →
        b.Handle rec = Except.error ())
    ∧ (syslogFnFor CRITICAL = some SyslogFn.crit
      ∧ syslogFnFor ERROR = some SyslogFn.err
      ∧ syslogFnFor WARNING = some SyslogFn.warning
      ∧ syslogFnFor NOTICE = some SyslogFn.notice
      ∧ syslogFnFor INFO = some SyslogFn.info
      ∧ syslogFnFor DEBUG = some SyslogFn.debug) := by
  refine ⟨?_, ?_, by decide⟩
  · intro hmem
    by_cases hm : b.base.FilterAndFormat rec = []
    · refine ⟨none, ?_, by simp⟩
      rw [SyslogHandler.Handle]
      simp [hm]
    · have hfn : ∃ fn, syslogFnFor rec.Level = some fn := by
        simp [sixLevels] at hmem
        rcases hmem with hL | hL | hL | hL | hL | hL <;> rw [hL] <;>
          first
          | exact ⟨SyslogFn.crit, by decide⟩
          | exact ⟨SyslogFn.err, by decide⟩
          | exact ⟨SyslogFn.warning, by decide⟩
          | exact ⟨SyslogFn.notice, by decide⟩
          | exact ⟨SyslogFn.info, by decide⟩
          | exact ⟨SyslogFn.debug, by decide⟩
      obtain ⟨fn, hfn⟩ := hfn
      refine ⟨some (fn, b.base.FilterAndFormat rec), ?_, ?_⟩
      · rw [SyslogHandler.Handle]
        simp [hm, hfn]
      · intro p hp
        rw [Option.mem_def, Option.some_inj] at hp
        subst hp
        exact ⟨hfn, rfl⟩
  · intro hmem hm
    have hfn : syslogFnFor rec.Level = none := by
      simp [sixLevels] at hmem
      simp [syslogFnFor, hmem.1, hmem.2.1, hmem.2.2.1, hmem.2.2.2.1,
        hmem.2.2.2.2.1, hmem.2.2.2.2.2]
    rw [SyslogHandler.Handle]
    simp [hm, hfn]

/-- Witness for C10: level 6 (not a named constant) passing a threshold of
10 faults; an INFO record goes to the `Info` transport method. -/
theorem c10_syslog_switch_witness :
    (wRecBad.Level ∉ sixLevels
      ∧ wSys.base.FilterAndFormat wRecBad ≠ []
      ∧ wSys.Handle wRecBad = Except.error ())
    ∧ (wRecI.Level ∈ sixLevels
      ∧ ∃ o, wSys.Handle wRecI = Except.ok o
        ∧ ∀ p ∈ o, syslogFnFor wRecI.Level = some p.1
            ∧ p.2 = wSys.base.FilterAndFormat wRecI) := by
  have ht := c10_syslog_switch wSys wRecBad
  have ht2 := c10_syslog_switch wSys wRecI
  have h1 : wRecBad.Level ∉ sixLevels := by decide
  have h2 : wSys.base.FilterAndFormat wRecBad ≠ [] := by decide
  exact ⟨⟨h1, h2, ht.2.1 h1 h2⟩, ⟨by decide, ht2.1 (by decide)⟩⟩

/-- Modelled from the spec's words: the default formatting output,
byte for byte, is `YYYY-MM-DD HH:MM:SS [<name>] <LEVELNAME padded to width
8, left-justified> <formatted message>`, the timestamp truncated to second
precision and the trailing newline carried by the message substituted from
the logger-normalized template. -/
def specDefaultLine (rec : Record) : Str :=
  dateTimePart rec.Time ++ s2l " [" ++ rec.LoggerName ++ s2l "] "
    ++ padRight8 (LevelNames rec.Level) ++ s2l " "
    ++ goSprintf rec.Format rec.Args

/-- Claim C3: for every record (with a normalized time and a named level),
the default formatter renders exactly the spec's byte-for-byte line; the
level name really occupies 8 left-justified bytes; and the formatter
appends nothing after the substituted message, whose trailing newline (from
the logger-normalized template) is the line's trailing newline. -/
theorem c3_default_format (rec : Record)
    (hy : rec.Time.year ≤ 9999) (hmo : rec.Time.month ≤ 99)
    (hd : rec.Time.day ≤ 99) (hh : rec.Time.hour ≤ 99)
    (hmi : rec.Time.minute ≤ 99) (hs : rec.Time.second ≤ 99)
    (hlv : rec.Level ∈ sixLevels) :
    defaultFormatter.Format rec = specDefaultLine rec
    ∧ (padRight8 (LevelNames rec.Level)).length = 8
    ∧ (EndsNl rec.Format → EndsNl (defaultFormatter.Format rec)) := by
  refine ⟨?_, ?_, ?_⟩
  · rw [defaultFormatter.Format, specDefaultLine,
      goTimeSprint_take19 rec.Time hy hmo hd hh hmi hs]
  · simp [sixLevels] at hlv
    rcases hlv with h | h | h | h | h | h <;> rw [h] <;> decide
  · intro h
    rw [defaultFormatter.Format]
    exact endsNl_append _ (goSprintf_endsNl _ _ h)

/-- Witness for C3 at the spec's own end-to-end example record. -/
theorem c3_default_format_witness :
    (wRecI.Time.year ≤ 9999 ∧ wRecI.Time.month ≤ 99 ∧ wRecI.Time.day ≤ 99
      ∧ wRecI.Time.hour ≤ 99 ∧ wRecI.Time.minute ≤ 99
      ∧ wRecI.Time.second ≤ 99 ∧ wRecI.Level ∈ sixLevels)
    ∧ (defaultFormatter.Format wRecI = specDefaultLine wRecI
      ∧ (padRight8 (LevelNames wRecI.Level)).length = 8
      ∧ (EndsNl wRecI.Format → EndsNl (defaultFormatter.Format wRecI)))
    ∧ defaultFormatter.Format wRecI
        = s2l "2014-02-28 18:15:57 [svc] INFO     request id=42\n" :=
  ⟨by decide,
    c3_default_format wRecI (by decide) (by decide) (by decide) (by decide)
      (by decide) (by decide) (by decide),
    by decide⟩

def c4Logger : logger := { Name := s2l "svc", Level := INFO }

/-- Counterexample to claim C4 as stated: the template `"a\n\n"` is
delivered unchanged, so the record's stored template ends in TWO trailing
newlines, not exactly one. -/
theorem c4_counterexample :
    (recordsOf (c4Logger.Info wCtx [wFrame] (s2l "a\n\n") [])).map Record.Format
      = [s2l "a\n\n"]
    ∧ (s2l "\n\n").isSuffixOf (s2l "a\n\n") = true := by decide

/-- Claim C4 (amended): the record's stored template ends in AT LEAST one
trailing newline — a newline is appended exactly when the template lacks
one, and a template already ending in newline is left unchanged (not
doubled), even when it already ends in several newlines. -/
theorem c4_newline_normalization (l : logger) (ctx : RuntimeCtx)
    (callers : List Frame) (level : Int) (format : Str) (args : List GoVal) :
    (∀ r ∈ recordsOf (l.log ctx callers level format args),
        r.Format = normalizeTemplate format)
    ∧ EndsNl (normalizeTemplate format)
    ∧ (¬ EndsNl format → normalizeTemplate format = format ++ s2l "\n")
    ∧ (EndsNl format → normalizeTemplate format = format) := by
  refine ⟨?_, normalizeTemplate_endsNl format,
    fun h => normalizeTemplate_of_not_endsNl h,
    fun h => normalizeTemplate_of_endsNl h⟩
  intro r hr
  simp [recordsOf, logger.log] at hr
  rw [hr]
  rfl

/-- Witness for C4 on a template without and a template with a trailing
newline. -/
theorem c4_newline_normalization_witness :
    (¬ EndsNl (s2l "x") ∧ normalizeTemplate (s2l "x") = s2l "x" ++ s2l "\n")
    ∧ (EndsNl (s2l "y\n") ∧ normalizeTemplate (s2l "y\n") = s2l "y\n")
    ∧ (∀ r ∈ recordsOf (c4Logger.log wCtx [wFrame] INFO (s2l "x") []),
        r.Format = normalizeTemplate (s2l "x")) := by
  have h1 := c4_newline_normalization c4Logger wCtx [wFrame] INFO (s2l "x") []
  have h2 := c4_newline_normalization c4Logger wCtx [wFrame] INFO (s2l "y\n") []
  exact ⟨⟨by decide, h1.2.2.1 (by decide)⟩, ⟨by decide, h2.2.2.2 (by decide)⟩, h1.1⟩

/-- Claim C5: `MultiHandler.Handle` hands the same record to every one of
its children through that child's own `Handle`, preserves the child count,
and each child's outcome depends only on that child and the record — the
behavior (including failure) of the other children cannot affect it.  The
goroutine-per-child dispatch with the `WaitGroup` join barrier is modelled
by the map being fully evaluated when `Handle` returns; no error is
surfaced: the result is only the updated children. -/
theorem c5_multi_fanout {σ : Type} (m m₂ : MultiHandler (Child σ))
    (rec : Record) (i : Nat) :
    (m.Handle rec).handlers.length = m.handlers.length
    ∧ (m.Handle rec).handlers[i]?
        = (m.handlers[i]?).map (fun c => { c with state := c.handle rec c.state })
    ∧ (m.handlers[i]? = m₂.handlers[i]? →
        (m.Handle rec).handlers[i]? = (m₂.Handle rec).handlers[i]?) := by
  refine ⟨?_, ?_, ?_⟩
  · simp [MultiHandler.Handle]
  · simp [MultiHandler.Handle, List.getElem?_map]
  · intro hsame
    simp [MultiHandler.Handle, List.getElem?_map, hsame]

def wChildOk : Child (Bool × List Record) :=
  { state := (false, []), handle := fun r s => (s.1, s.2 ++ [r]) }

def wChildBad : Child (Bool × List Record) :=
  { state := (false, []), handle := fun _ s => (true, s.2) }

def wMulti : MultiHandler (Child (Bool × List Record)) :=
  { handlers := [wChildOk, wChildBad, wChildOk] }

/-- Witness for C5: three children of which the middle one fails while
handling; the two others still receive the record. -/
theorem c5_multi_fanout_witness :
    ((wMulti.Handle wRecI).handlers.length = wMulti.handlers.length
    ∧ (wMulti.Handle wRecI).handlers[2]?
        = (wMulti.handlers[2]?).map
            (fun c => { c with state := c.handle wRecI c.state })
    ∧ (wMulti.Handle wRecI).handlers[2]? = (wMulti.Handle wRecI).handlers[2]?)
    ∧ (wMulti.Handle wRecI).handlers.map Child.state
        = [(false, [wRecI]), (true, []), (false, [wRecI])] :=
  have h := c5_multi_fanout wMulti wMulti wRecI 2
  ⟨⟨h.1, h.2.1, h.2.2 rfl⟩, rfl⟩

/-- Claim C6: `SetLevel L` (resp. `SetFormatter F`) on a `MultiHandler`
sets every child's threshold (resp. formatter) to exactly `L` (resp. `F`),
overwriting the child's prior setting and leaving its other field intact;
and a `MultiHandler` is nothing but its children — it holds no threshold or
formatter of its own. -/
theorem c6_cascade (m : MultiHandler BaseHandler) (L : Int) (F : FormatterFn)
    (i : Nat) :
    (m.SetLevel L).handlers[i]?
        = (m.handlers[i]?).map (fun hb => { hb with Level := L })
    ∧ (∀ hb ∈ (m.SetLevel L).handlers, hb.Level = L)
    ∧ (m.SetFormatter F).handlers[i]?
        = (m.handlers[i]?).map (fun hb => { hb with Formatter := F })
    ∧ (∀ hb ∈ (m.SetFormatter F).handlers, hb.Formatter = F)
    ∧ (∀ m₁ m₂ : MultiHandler BaseHandler, m₁.handlers = m₂.handlers → m₁ = m₂) := by
  refine ⟨?_, ?_, ?_, ?_, ?_⟩
  · simp [MultiHandler.SetLevel, List.getElem?_map, BaseHandler.SetLevel]
  · intro hb hmem
    simp [MultiHandler.SetLevel, List.mem_map] at hmem
    obtain ⟨h₀, _, rfl⟩ := hmem
    rfl
  · simp [MultiHandler.SetFormatter, List.getElem?_map, BaseHandler.SetFormatter]
  · intro hb hmem
    simp [MultiHandler.SetFormatter, List.mem_map] at hmem
    obtain ⟨h₀, _, rfl⟩ := hmem
    rfl
  · intro m₁ m₂ hh
    cases m₁
    cases m₂
    simpa using hh

def wBases : MultiHandler BaseHandler :=
  { handlers := [{ Level := CRITICAL, Formatter := defaultFormatter.Format },
                 { Level := INFO, Formatter := defaultFormatter.Format },
                 { Level := DEBUG, Formatter := fun _ => s2l "m" }] }

/-- Witness for C6: cascading `SetLevel WARNING` over three children with
distinct prior thresholds. -/
theorem c6_cascade_witness :
    ((wBases.SetLevel WARNING).handlers[1]?
        = (wBases.handlers[1]?).map (fun hb => { hb with Level := WARNING })
    ∧ (∀ hb ∈ (wBases.SetLevel WARNING).handlers, hb.Level = WARNING)
    ∧ (wBases.SetFormatter defaultFormatter.Format).handlers[1]?
        = (wBases.handlers[1]?).map
            (fun hb => { hb with Formatter := defaultFormatter.Format })
    ∧ (∀ hb ∈ (wBases.SetFormatter defaultFormatter.Format).handlers,
        hb.Formatter = defaultFormatter.Format)
    ∧ (∀ m₁ m₂ : MultiHandler BaseHandler, m₁.handlers = m₂.handlers → m₁ = m₂))
    ∧ (wBases.SetLevel WARNING).handlers.map BaseHandler.Level
        = [WARNING, WARNING, WARNING] :=
  ⟨c6_cascade wBases WARNING defaultFormatter.Format 1, rfl⟩

/-! ## Caller location (claim C8) -/

theorem mem_locs_gate {c : Prop} [Decidable c] {l : logger} {ctx : RuntimeCtx}
    {cs : List Frame} {lvl : Int} {format : Str} {args : List GoVal}
    {p : Str × Int}
    (hp : p ∈ deliveredLocs (if c then l.log ctx cs lvl format args else [])) :
    p = (((cs[1]?).map Frame.file).getD (s2l "???"),
         ((cs[1]?).map Frame.line).getD 0) := by
  split at hp
  · simpa [deliveredLocs, recordsOf, logger.log, logger.mkRecord] using hp
  · simp [deliveredLocs, recordsOf] at hp

theorem mem_locs_append_tail (t2 : List Event) {p : Str × Int}
    {t1 : List Event} (h2 : recordsOf t2 = [])
    (hp : p ∈ deliveredLocs (t1 ++ t2)) :
    p ∈ deliveredLocs t1 := by
  unfold deliveredLocs recordsOf at hp ⊢
  rw [List.filterMap_append] at hp
  unfold recordsOf at h2
  rw [h2] at hp
  simpa using hp

def wLoggerI : logger := { Name := s2l "svc", Level := INFO }

/-- Counterexample to claim C8 as stated: a delivered call through the
process-wide convenience function `Info` records the source location
`logging.go:296` — the library's own wrapper frame — not the user call
site `main.go:10`, because the fixed two-frame skip does not account for
the extra wrapper frame. -/
theorem c8_counterexample :
    deliveredLocs (Info wLoggerI wCtx [wFrame] (s2l "x") [])
      = [(libFile, 296)]
    ∧ wFrame.file = s2l "main.go" ∧ libFile ≠ s2l "main.go" := by decide

/-- Claim C8 (amended): the two-frame skip in `logger.log` identifies the
user call site only for severity-named methods invoked directly on a
Logger; a delivered call through a process-wide convenience function
records that free function's own frame inside the library
(`logging.go:280/284/288/292/296/300`), and `Fatal`/`Panic` (method or free)
record the `Fatal`/`Panic` method's frame (`logging.go:188/194`). -/
theorem c8_caller_location (l dl : logger) (ctx : RuntimeCtx) (user : Frame)
    (rest : List Frame) (format : Str) (args : List GoVal) :
    (∀ p ∈ deliveredLocs (l.Critical ctx (user :: rest) format args),
        p = (user.file, user.line))
    ∧ (∀ p ∈ deliveredLocs (l.Error ctx (user :: rest) format args),
        p = (user.file, user.line))
    ∧ (∀ p ∈ deliveredLocs (l.Warning ctx (user :: rest) format args),
        p = (user.file, user.line))
    ∧ (∀ p ∈ deliveredLocs (l.Notice ctx (user :: rest) format args),
        p = (user.file, user.line))
    ∧ (∀ p ∈ deliveredLocs (l.Info ctx (user :: rest) format args),
        p = (user.file, user.line))
    ∧ (∀ p ∈ deliveredLocs (l.Debug ctx (user :: rest) format args),
        p = (user.file, user.line))
    ∧ (∀ p ∈ deliveredLocs (Critical dl ctx (user :: rest) format args),
        p = (libFile, 280))
    ∧ (∀ p ∈ deliveredLocs (Error dl ctx (user :: rest) format args),
        p = (libFile, 284))
    ∧ (∀ p ∈ deliveredLocs (Warning dl ctx (user :: rest) format args),
        p = (libFile, 288))
    ∧ (∀ p ∈ deliveredLocs (Notice dl ctx (user :: rest) format args),
        p = (libFile, 292))
    ∧ (∀ p ∈ deliveredLocs (Info dl ctx (user :: rest) format args),
        p = (libFile, 296))
    ∧ (∀ p ∈ deliveredLocs (Debug dl ctx (user :: rest) format args),
        p = (libFile, 300))
    ∧ (∀ p ∈ deliveredLocs (l.Fatal ctx (user :: rest) format args),
        p = (libFile, 188))
    ∧ (∀ p ∈ deliveredLocs (l.Panic ctx (user :: rest) format args),
        p = (libFile, 194))
    ∧ (∀ p ∈ deliveredLocs (Fatal dl ctx (user :: rest) format args),
        p = (libFile, 188))
    ∧ (∀ p ∈ deliveredLocs (Panic dl ctx (user :: rest) format args),
        p = (libFile, 194)) := by
  refine ⟨?_, ?_, ?_, ?_, ?_, ?_, ?_, ?_, ?_, ?_, ?_, ?_, ?_, ?_, ?_, ?_⟩
  · intro p hp
    rw [logger.Critical] at hp
    simpa using mem_locs_gate hp
  · intro p hp
    rw [logger.Error] at hp
    simpa using mem_locs_gate hp
  · intro p hp
    rw [logger.Warning] at hp
    simpa using mem_locs_gate hp
  · intro p hp
    rw [logger.Notice] at hp
    simpa using mem_locs_gate hp
  · intro p hp
    rw [logger.Info] at hp
    simpa using mem_locs_gate hp
  · intro p hp
    rw [logger.Debug] at hp
    simpa using mem_locs_gate hp
  · intro p hp
    rw [Critical, logger.Critical] at hp
    simpa [frameCriticalF, libFile] using mem_locs_gate hp
  · intro p hp
    rw [Error, logger.Error] at hp
    simpa [frameErrorF, libFile] using mem_locs_gate hp
  · intro p hp
    rw [Warning, logger.Warning] at hp
    simpa [frameWarningF, libFile] using mem_locs_gate hp
  · intro p hp
    rw [Notice, logger.Notice] at hp
    simpa [frameNoticeF, libFile] using mem_locs_gate hp
  · intro p hp
    rw [Info, logger.Info] at hp
    simpa [frameInfoF, libFile] using mem_locs_gate hp
  · intro p hp
    rw [Debug, logger.Debug] at hp
    simpa [frameDebugF, libFile] using mem_locs_gate hp
  · intro p hp
    rw [logger.Fatal] at hp
    have hp2 := mem_locs_append_tail [Event.exited 1] rfl hp
    have hp3 := mem_locs_append_tail logger.CloseTrace rfl hp2
    rw [logger.Critical] at hp3
    simpa [frameFatalM, libFile] using mem_locs_gate hp3
  · intro p hp
    rw [logger.Panic] at hp
    have hp2 := mem_locs_append_tail
      [Event.panicMsg (goSprintf format args)] rfl hp
    have hp3 := mem_locs_append_tail logger.CloseTrace rfl hp2
    rw [logger.Critical] at hp3
    simpa [framePanicM, libFile] using mem_locs_gate hp3
  · intro p hp
    rw [Fatal, logger.Fatal] at hp
    have hp2 := mem_locs_append_tail [Event.exited 1] rfl hp
    have hp3 := mem_locs_append_tail logger.CloseTrace rfl hp2
    rw [logger.Critical] at hp3
    simpa [frameFatalM, libFile] using mem_locs_gate hp3
  · intro p hp
    rw [Panic, logger.Panic] at hp
    have hp2 := mem_locs_append_tail
      [Event.panicMsg (goSprintf format args)] rfl hp
    have hp3 := mem_locs_append_tail logger.CloseTrace rfl hp2
    rw [logger.Critical] at hp3
    simpa [framePanicM, libFile] using mem_locs_gate hp3

/-- Witness for C8: a direct `Info` call reports the user frame
`main.go:10`; the free `Info` reports the library frame `logging.go:296`. -/
theorem c8_caller_location_witness :
    ((s2l "main.go", (10 : Int))
        ∈ deliveredLocs (wLoggerI.Info wCtx [wFrame] (s2l "x") [])
      ∧ (s2l "main.go", (10 : Int)) = (wFrame.file, wFrame.line))
    ∧ ((libFile, (296 : Int))
        ∈ deliveredLocs (Info wLoggerI wCtx [wFrame] (s2l "x") [])
      ∧ (libFile, (296 : Int)) = (libFile, 296)) := by
  have h := c8_caller_location wLoggerI wLoggerI wCtx wFrame [] (s2l "x") []
  exact ⟨⟨by decide, h.2.2.2.2.1 _ (by decide)⟩,
    ⟨by decide, h.2.2.2.2.2.2.2.2.2.2.1 _ (by decide)⟩⟩

end Logging
